import Mathlib

/-!
Verification model of `src/promise.h` (namespace CPromise): a JavaScript-style
promise with executor construction, chained `then`, `catchError`, and
resolve/reject capabilities bound to a shared settlement record.

The embedding instantiates the value type `T` at `int` (Lean `Int`), which is
the instantiation every claim speaks about.  The machine is a heap of
settlement records (`Rec`), one per `std::shared_ptr<State>`, together with an
event trace recording each invocation of a user-supplied callback.  C++
exceptions are threaded explicitly: every operation returns the mutated
machine together with a `DrainOut` flag saying whether it returned normally,
let a native fault propagate to its caller, or dereferenced a null record
pointer.  Callbacks stored in the record queues are defunctionalized into the
exact closure shapes the source pushes (`FCb`/`RCb`), with the user-supplied
parts kept as arbitrary Lean functions that may also raise a fault.

A small companion model of the relevant C++ typing rules (`CType` and friends)
is used for the parts of the source that are ill-formed when instantiated
(the nested-promise branch of `m_resolveFn`, lines 66-90 of the source).
-/

namespace CPromise

/-- Source: `enum class PromiseState { Pending, Fulfilled, Rejected }` (line 14). -/
inductive PromiseState where
  | Pending
  | Fulfilled
  | Rejected
deriving DecidableEq

/-- Source: `struct PromiseError { std::string message; int code{0}; ... }` (lines 16-29). -/
structure PromiseError where
  message : String
  code : Int
deriving DecidableEq

/-- A native C++ fault: either a `std::exception` carrying a `what()` message,
or a fault of unknown/non-standard type (caught by `catch (...)`). -/
inductive CppFault where
  | std (msg : String)
  | unknown
deriving DecidableEq

/-- Source: `PromiseError::fromException` (lines 23-25): message from `e.what()`, code `-1`. -/
def PromiseError.fromException (msg : String) : PromiseError := ⟨msg, -1⟩

/-- Source: `PromiseError::unknownException` (lines 26-28). -/
def PromiseError.unknownException : PromiseError := ⟨"Unknown exception", -1⟩

/-- The error the catch clauses build from a caught fault: `fromException(e)` for a
`std::exception`, `unknownException()` for `catch (...)` (e.g. lines 100-103). -/
def PromiseError.ofFault : CppFault → PromiseError
  | .std msg => PromiseError.fromException msg
  | .unknown => PromiseError.unknownException

/-- Error built at the cycle checks (lines 70, 167, 205, ...). -/
def chainingCycleError : PromiseError := ⟨"Chaining cycle detected for promise", -1⟩

/-- Error built when a void-returning rejection handler feeds a value-typed chain
(lines 160, 199, ...). -/
def invalidReturnError : PromiseError := ⟨"Invalid return type", -1⟩

/-- Error built when chaining from a record-less promise (lines 266, 444, 563). -/
def noStateError : PromiseError := ⟨"Promise has no state", -1⟩

/-! ## Typing model

A closed model of the C++ types that occur in the source, used to settle the
claims about the nested-promise branch of `m_resolveFn` (lines 66-90), which is
ill-formed when instantiated.  `CType` covers `int`, `void`, `Promise<t>`,
`Promise<t>::State`, and `std::shared_ptr<t>`. -/

inductive CType where
  | int
  | void
  | promise (t : CType)
  | stateOf (t : CType)
  | sharedPtr (t : CType)
deriving DecidableEq

/-- Source: `PromiseTraits<T>::isPromise` (lines 35-44). -/
def isPromiseT : CType → Bool
  | .promise _ => true
  | _ => false

/-- Source: `PromiseTraits<T>::ValueType` (lines 35-44): the inner type of a
promise, the type itself otherwise. -/
def valueTypeT : CType → CType
  | .promise u => u
  | t => t

/-- The result value type `U` that `then` infers from a callback return type `R`
(lines 144-147): `U = ValueType<R>` when `R` is a promise, `U = decay_t<R>` otherwise. -/
def inferU (R : CType) : CType :=
  if isPromiseT R then valueTypeT R else R

/-- Whether an expression of type `rhs` can be assigned to an lvalue of type `lhs`
given the class surface of the source.  `Promise<U>` declares no assignment
operator and no converting constructor other than the default one and the
`explicit Promise(Executor)` one, so only the implicitly defaulted copy/move
assignments from the same type exist; `int` likewise only assigns from `int`.
Hence assignment requires identical types. -/
def cppAssignable (lhs rhs : CType) : Bool := lhs == rhs

/-- Whether `operator==` can compare two `std::shared_ptr` values of the given
pointee types: the built-in comparison needs the two pointer types to be
compatible, and the `State` classes of distinct `Promise` instantiations are
unrelated types. -/
def sharedPtrComparable (a b : CType) : Bool := a == b

/-- Whether code in the body of `Promise<ctx>` may name the private member `d`
of a `Promise<owner>` object.  The source declares no `friend`, so access
requires `owner = ctx`. -/
def privateDAccessible (owner ctx : CType) : Bool := owner == ctx

/-- In `m_resolveFn`'s nested branch (line 78), `statePtr->value = v;` assigns
`v : PromiseTraits<T>::ValueType` to the field `value : T`.  This pairs the
two types for `T` a promise type. -/
def nestedResolveAssignTypes (T : CType) : CType × CType := (T, valueTypeT T)

/-- In `m_resolveFn`'s cycle check (line 68), `value.d == statePtr` compares
`value.d : shared_ptr<Promise<ValueType<T>>::State>` with
`statePtr : shared_ptr<Promise<T>::State>`.  This pairs the two pointee types. -/
def nestedResolveCmpTypes (T : CType) : CType × CType :=
  (.stateOf (valueTypeT T), .stateOf T)

/-! ## Runtime model -/

/-- User-supplied `onFulfilled` callback of `Promise<int>::then`, classified by
its static return type `R` (line 143): `int`, `void`, or `Promise<int>`.
The function may raise a native fault.  A returned promise is represented by
its record handle `d` (`none` for a default-constructed, record-less promise). -/
inductive UserF where
  | toInt (f : Int → Except CppFault Int)
  | toVoid (f : Int → Except CppFault Unit)
  | toProm (f : Int → Except CppFault (Option Nat))

/-- User-supplied `onFulfilled` callback of `Promise<void>::then` (zero-argument). -/
inductive UserFV where
  | toInt (f : Unit → Except CppFault Int)
  | toVoid (f : Unit → Except CppFault Unit)
  | toProm (f : Unit → Except CppFault (Option Nat))

/-- User-supplied `onRejected` callback, classified by its return type `R2`
(line 193). -/
inductive UserG where
  | toInt (g : PromiseError → Except CppFault Int)
  | toVoid (g : PromiseError → Except CppFault Unit)
  | toProm (g : PromiseError → Except CppFault (Option Nat))

/-- Whether the fulfillment callback returns `void`, i.e. whether the inferred
`U` is `void` and the produced promise is a `Promise<void>` (lines 144-147). -/
def UserF.retVoid : UserF → Bool
  | .toVoid _ => true
  | _ => false

/-- Same classification for the void-variant fulfillment callback. -/
def UserFV.retVoid : UserFV → Bool
  | .toVoid _ => true
  | _ => false

/-- Entries of a record's `thenCallbacks` queue (`OnFulfilled`), defunctionalized
into the closure shapes the source actually pushes:
* `handle tag uf next src` — the `handleFulfilled` lambda of `then` (lines
  153-186 / 271-300): runs user callback `uf` under `try`/`catch`, settling
  record `next`, with `src` the captured `currentState` used by the cycle check;
  `tag` is the trace mark emitted when the user callback is invoked;
* `handleV` — the same for `Promise<void>::then` (zero-argument callback);
* `fwdResolve target own` — the `handleFulfilled` produced by the inner
  `result.then([resolve](const U& u) { resolve(u); })` call of the flattening
  path (line 174): forwards the value to `target` and then resolves its own
  `Promise<void>` record `own`;
* `fwdResolveV target own` — the zero-argument form (line 172). -/
inductive FCb where
  | handle (tag : Nat) (uf : UserF) (nextId : Nat) (srcId : Nat)
  | handleV (tag : Nat) (uf : UserFV) (nextId : Nat) (srcId : Nat)
  | fwdResolve (targetId : Nat) (ownId : Nat)
  | fwdResolveV (targetId : Nat) (ownId : Nat)

/-- Entries of a record's `catchCallbacks` queue (`OnRejected`):
* `forward next` — the `handleRejected` of `then` without a rejection handler
  (`reject(e)`, line 190/301) and the `[reject](e){ reject(e); }` lambda the
  flattening path registers via `catchError` (line 176);
* `handleR tag ug uVoid next src` — the `handleRejected` lambda with a user
  handler `ug` (lines 188-225), `uVoid` recording whether the chain's inferred
  `U` is `void`;
* `raw tag g` — a user handler appended by `catchError` (line 316): stored
  as-is, with no `try`/`catch` wrapper. -/
inductive RCb where
  | forward (nextId : Nat)
  | handleR (tag : Nat) (ug : UserG) (uVoid : Bool) (nextId : Nat) (srcId : Nat)
  | raw (tag : Nat) (g : PromiseError → Except CppFault Unit)

/-- One settlement record, i.e. one `Promise<T>::State` (lines 352-370) or
`Promise<void>::State` (lines 648-665).  `isVoid` marks records backing
`Promise<void>` (whose `State` has no `value` field; the `value` here is then
never read). -/
structure Rec where
  state : PromiseState
  value : Int
  error : PromiseError
  thenCallbacks : List FCb
  catchCallbacks : List RCb
  isVoid : Bool

/-- A freshly allocated record: `Pending`, default value and error, empty queues. -/
def Rec.fresh (isVoid : Bool) : Rec := ⟨.Pending, 0, ⟨"", 0⟩, [], [], isVoid⟩

/-- The machine: the heap of settlement records (index = record identity, i.e.
the `shared_ptr<State>` value) and the trace of user-callback invocations. -/
structure M where
  heap : List Rec
  trace : List Nat

def M.empty : M := ⟨[], []⟩

def M.get? (m : M) (i : Nat) : Option Rec := m.heap[i]?

def M.set (m : M) (i : Nat) (r : Rec) : M := ⟨m.heap.set i r, m.trace⟩

def M.alloc (m : M) (r : Rec) : M × Nat := (⟨m.heap ++ [r], m.trace⟩, m.heap.length)

def M.emit (m : M) (t : Nat) : M := ⟨m.heap, m.trace ++ [t]⟩

/-- Outcome flag of an operation: returned normally, let a native C++ fault
propagate to the caller, ran out of model fuel, or dereferenced a null
record pointer (undefined behavior in the source). -/
inductive DrainOut where
  | ok
  | fault (e : CppFault)
  | outOfFuel
  | nullDeref
deriving DecidableEq

/-- Result of an operation: the mutated machine (mutations made before a fault
persist, as in C++) plus the outcome flag. -/
abbrev Res := M × DrainOut

/-- Append the given fulfillment and rejection callbacks to record `i`'s queues
(the pending branch of `then`, lines 236-237). -/
def pushCbs (m : M) (i : Nat) (fcb : FCb) (rcb : RCb) : M :=
  match m.get? i with
  | none => m
  | some r =>
    m.set i { r with
      thenCallbacks := r.thenCallbacks ++ [fcb],
      catchCallbacks := r.catchCallbacks ++ [rcb] }

/-- Instruction set of the settlement machine: one constructor per internal
operation of the source, interpreted by `step`.  The operations are mutually
recursive in the source (settling drains queues, whose callbacks settle further
records); packaging them as one fuel-indexed interpreter keeps the recursion
structural so that concrete runs evaluate definitionally. -/
inductive Ins where
  | maybeInvoke (i : Nat)
  | drainF (cbs : List FCb) (v : Int)
  | drainR (cbs : List RCb) (e : PromiseError)
  | invokeF (cb : FCb) (v : Int)
  | invokeR (cb : RCb) (e : PromiseError)
  | resolveFn (i : Nat) (v : Int)
  | resolveFnV (i : Nat)
  | rejectFn (i : Nat) (e : PromiseError)
  | innerThenFwdI (dOpt : Option Nat) (target : Nat)
  | innerThenFwdV (dOpt : Option Nat) (target : Nat)
  | catchErrorPush (dOpt : Option Nat) (cb : RCb)

/-- The interpreter for `Ins`.  Each case is the direct translation of the
corresponding source function; see the doc comments on the named wrappers
below for the source locations.  Every recursive call consumes one unit of
fuel; exhausted fuel yields the `outOfFuel` flag. -/
def step (fuel : Nat) (ins : Ins) (m : M) : Res :=
  match fuel with
  | 0 => (m, .outOfFuel)
  | fuel + 1 =>
    match ins with
    | .maybeInvoke i =>
      -- Promise<T>::State::maybeInvoke (lines 359-369): drain the queue
      -- matching the settled state, then clear both queues; a fault raised by
      -- a drained callback aborts the loop, skips the clears, and propagates.
      (match m.get? i with
      | none => (m, .ok)
      | some r =>
        if r.state = .Fulfilled then
          match step fuel (.drainF r.thenCallbacks r.value) m with
          | (m2, .ok) =>
            (match m2.get? i with
             | none => (m2, .ok)
             | some r2 => (m2.set i { r2 with thenCallbacks := [], catchCallbacks := [] }, .ok))
          | other => other
        else if r.state = .Rejected then
          match step fuel (.drainR r.catchCallbacks r.error) m with
          | (m2, .ok) =>
            (match m2.get? i with
             | none => (m2, .ok)
             | some r2 => (m2.set i { r2 with thenCallbacks := [], catchCallbacks := [] }, .ok))
          | other => other
        else (m, .ok))
    | .drainF cbs v =>
      -- The loop over thenCallbacks (line 361), on a snapshot of the queue.
      (match cbs with
      | [] => (m, .ok)
      | c :: rest =>
        match step fuel (.invokeF c v) m with
        | (m2, .ok) => step fuel (.drainF rest v) m2
        | other => other)
    | .drainR cbs e =>
      -- The loop over catchCallbacks (line 365).
      (match cbs with
      | [] => (m, .ok)
      | c :: rest =>
        match step fuel (.invokeR c e) m with
        | (m2, .ok) => step fuel (.drainR rest e) m2
        | other => other)
    | .invokeF cb v =>
      -- Invoke one fulfillment-queue callback.  For every shape the body runs
      -- inside the lambda's try block; a fault is caught by the trailing catch
      -- clauses, which call reject(...) on the produced promise (lines
      -- 181-185) - and a fault raised by that very reject call propagates,
      -- since it sits outside the try.
      (match cb with
      | .handle tag uf next src =>
        let body : Res :=
          let m1 := m.emit tag
          match uf with
          | .toInt f =>
            match f v with
            | .ok r => step fuel (.resolveFn next r) m1
            | .error ex => (m1, .fault ex)
          | .toVoid f =>
            -- R = void forces U = void (lines 155-161); the
            -- reject("Invalid return type") alternative there is unreachable.
            match f v with
            | .ok _ => step fuel (.resolveFnV next) m1
            | .error ex => (m1, .fault ex)
          | .toProm f =>
            match f v with
            | .ok dOpt =>
              if dOpt = some src then step fuel (.rejectFn next chainingCycleError) m1
              else
                match step fuel (.innerThenFwdI dOpt next) m1 with
                | (m2, .ok) => step fuel (.catchErrorPush dOpt (.forward next)) m2
                | other => other
            | .error ex => (m1, .fault ex)
        (match body with
         | (m2, .fault ex) => step fuel (.rejectFn next (PromiseError.ofFault ex)) m2
         | other => other)
      | .handleV tag uf next src =>
        let body : Res :=
          let m1 := m.emit tag
          match uf with
          | .toInt f =>
            match f () with
            | .ok r => step fuel (.resolveFn next r) m1
            | .error ex => (m1, .fault ex)
          | .toVoid f =>
            match f () with
            | .ok _ => step fuel (.resolveFnV next) m1
            | .error ex => (m1, .fault ex)
          | .toProm f =>
            match f () with
            | .ok dOpt =>
              if dOpt = some src then step fuel (.rejectFn next chainingCycleError) m1
              else
                match step fuel (.innerThenFwdV dOpt next) m1 with
                | (m2, .ok) => step fuel (.catchErrorPush dOpt (.forward next)) m2
                | other => other
            | .error ex => (m1, .fault ex)
        (match body with
         | (m2, .fault ex) => step fuel (.rejectFn next (PromiseError.ofFault ex)) m2
         | other => other)
      | .fwdResolve target own =>
        let body : Res :=
          match step fuel (.resolveFn target v) m with
          | (m2, .ok) => step fuel (.resolveFnV own) m2
          | other => other
        (match body with
         | (m2, .fault ex) => step fuel (.rejectFn own (PromiseError.ofFault ex)) m2
         | other => other)
      | .fwdResolveV target own =>
        let body : Res :=
          match step fuel (.resolveFnV target) m with
          | (m2, .ok) => step fuel (.resolveFnV own) m2
          | other => other
        (match body with
         | (m2, .fault ex) => step fuel (.rejectFn own (PromiseError.ofFault ex)) m2
         | other => other))
    | .invokeR cb e =>
      -- Invoke one rejection-queue callback.  `forward` and `raw` run with no
      -- try/catch of their own, exactly as in the source (line 190 and lines
      -- 314-320): a fault they raise propagates to the drain.
      (match cb with
      | .forward next => step fuel (.rejectFn next e) m
      | .raw tag g =>
        let m1 := m.emit tag
        (match g e with
        | .ok _ => (m1, .ok)
        | .error ex => (m1, .fault ex))
      | .handleR tag ug uVoid next src =>
        let body : Res :=
          let m1 := m.emit tag
          match uVoid, ug with
          | false, .toInt g =>
            match g e with
            | .ok r => step fuel (.resolveFn next r) m1
            | .error ex => (m1, .fault ex)
          | false, .toVoid g =>
            -- R2 = void with U != void: lines 194-199 reject with
            -- "Invalid return type".
            match g e with
            | .ok _ => step fuel (.rejectFn next invalidReturnError) m1
            | .error ex => (m1, .fault ex)
          | false, .toProm g =>
            match g e with
            | .ok dOpt =>
              if dOpt = some src then step fuel (.rejectFn next chainingCycleError) m1
              else
                match step fuel (.innerThenFwdI dOpt next) m1 with
                | (m2, .ok) => step fuel (.catchErrorPush dOpt (.forward next)) m2
                | other => other
            | .error ex => (m1, .fault ex)
          | true, .toVoid g =>
            match g e with
            | .ok _ => step fuel (.resolveFnV next) m1
            | .error ex => (m1, .fault ex)
          -- The two remaining combinations (U = void with a value- or
          -- promise-returning rejection handler) are ill-formed in the source
          -- (they call the zero-argument resolve with an argument, line 216)
          -- and are never produced by the modeled then operations.
          | true, .toInt _ => (m1, .ok)
          | true, .toProm _ => (m1, .ok)
        (match body with
         | (m2, .fault ex) => step fuel (.rejectFn next (PromiseError.ofFault ex)) m2
         | other => other))
    | .resolveFn i v =>
      -- The m_resolveFn closure of Promise<int>::Promise(Executor) (lines
      -- 63-91, non-promise branch, T = int): no-op unless Pending, else store
      -- the value, mark Fulfilled, and drain.
      (match m.get? i with
      | none => (m, .ok)
      | some r =>
        if r.state ≠ .Pending then (m, .ok)
        else step fuel (.maybeInvoke i) (m.set i { r with state := .Fulfilled, value := v }))
    | .resolveFnV i =>
      -- The m_resolveFn closure of Promise<void>::Promise(Executor)
      -- (lines 394-398).
      (match m.get? i with
      | none => (m, .ok)
      | some r =>
        if r.state ≠ .Pending then (m, .ok)
        else step fuel (.maybeInvoke i) (m.set i { r with state := .Fulfilled }))
    | .rejectFn i e =>
      -- The m_rejectFn closure (lines 92-97 and 399-404, identical for both
      -- variants): no-op unless Pending, else store the error, mark Rejected,
      -- and drain.
      (match m.get? i with
      | none => (m, .ok)
      | some r =>
        if r.state ≠ .Pending then (m, .ok)
        else step fuel (.maybeInvoke i) (m.set i { r with state := .Rejected, error := e }))
    | .innerThenFwdI dOpt target =>
      -- The flattening path's inner call
      -- result.then([resolve](const U& u) { resolve(u); }); (line 174), i.e.
      -- the one-argument then on the promise handle dOpt returned by the user
      -- callback, with the forwarding lambda as onFulfilled and target the
      -- outer produced promise.  Faithful to then(F, nullptr) (lines 254-312):
      -- a record-less handle returns a fresh promise rejected with the
      -- no-state error; otherwise a fresh Promise<void> record is allocated
      -- and the executor dispatches on the state of result's record, with the
      -- constructor's try/catch converting an escaped fault into a rejection
      -- of the fresh record (lines 98-104).
      (match dOpt with
      | none =>
        let (m2, fresh) := m.alloc (Rec.fresh true)
        step fuel (.rejectFn fresh noStateError) m2
      | some rid =>
        let (m2, own) := m.alloc (Rec.fresh true)
        let res : Res :=
          match m2.get? rid with
          | none => (m2, .ok)
          | some r =>
            if r.state = .Fulfilled then step fuel (.invokeF (.fwdResolve target own) r.value) m2
            else if r.state = .Rejected then step fuel (.invokeR (.forward own) r.error) m2
            else (pushCbs m2 rid (.fwdResolve target own) (.forward own), .ok)
        (match res with
         | (m3, .fault ex) => step fuel (.rejectFn own (PromiseError.ofFault ex)) m3
         | other => other))
    | .innerThenFwdV dOpt target =>
      -- The zero-argument form of the flattening path's inner then
      -- (result.then([resolve]() { resolve(); });, line 172), used when the
      -- returned promise is a Promise<void>.
      (match dOpt with
      | none =>
        let (m2, fresh) := m.alloc (Rec.fresh true)
        step fuel (.rejectFn fresh noStateError) m2
      | some rid =>
        let (m2, own) := m.alloc (Rec.fresh true)
        let res : Res :=
          match m2.get? rid with
          | none => (m2, .ok)
          | some r =>
            if r.state = .Fulfilled then step fuel (.invokeF (.fwdResolveV target own) r.value) m2
            else if r.state = .Rejected then step fuel (.invokeR (.forward own) r.error) m2
            else (pushCbs m2 rid (.fwdResolveV target own) (.forward own), .ok)
        (match res with
         | (m3, .fault ex) => step fuel (.rejectFn own (PromiseError.ofFault ex)) m3
         | other => other))
    | .catchErrorPush dOpt cb =>
      -- Promise<T>::catchError (lines 314-320) and the flattening path's
      -- result.catchError(...) (line 176): if the handle has a record, append
      -- the callback to its rejection queue and immediately attempt a drain;
      -- a record-less handle is a no-op.
      (match dOpt with
      | none => (m, .ok)
      | some i =>
        match m.get? i with
        | none => (m, .ok)
        | some r =>
          step fuel (.maybeInvoke i) (m.set i { r with catchCallbacks := r.catchCallbacks ++ [cb] }))

/-- Source: `Promise<T>::State::maybeInvoke` (lines 359-369). -/
def maybeInvoke (fuel : Nat) (i : Nat) (m : M) : Res :=
  step fuel (.maybeInvoke i) m

/-- The drain loop over a fulfillment queue (line 361). -/
def drainF (fuel : Nat) (cbs : List FCb) (v : Int) (m : M) : Res :=
  step fuel (.drainF cbs v) m

/-- The drain loop over a rejection queue (line 365). -/
def drainR (fuel : Nat) (cbs : List RCb) (e : PromiseError) (m : M) : Res :=
  step fuel (.drainR cbs e) m

/-- Invocation of one fulfillment-queue callback. -/
def invokeF (fuel : Nat) (cb : FCb) (v : Int) (m : M) : Res :=
  step fuel (.invokeF cb v) m

/-- Invocation of one rejection-queue callback. -/
def invokeR (fuel : Nat) (cb : RCb) (e : PromiseError) (m : M) : Res :=
  step fuel (.invokeR cb e) m

/-- Source: the `m_resolveFn` closure of `Promise<int>::Promise(Executor)`
(lines 63-91, non-promise branch, `T = int`). -/
def resolveFn (fuel : Nat) (i : Nat) (v : Int) (m : M) : Res :=
  step fuel (.resolveFn i v) m

/-- Source: the `m_resolveFn` closure of `Promise<void>::Promise(Executor)`
(lines 394-398). -/
def resolveFnV (fuel : Nat) (i : Nat) (m : M) : Res :=
  step fuel (.resolveFnV i) m

/-- Source: the `m_rejectFn` closure (lines 92-97 / 399-404). -/
def rejectFn (fuel : Nat) (i : Nat) (e : PromiseError) (m : M) : Res :=
  step fuel (.rejectFn i e) m

/-- The flattening path's inner `result.then(...)` call (line 174). -/
def innerThenFwdI (fuel : Nat) (dOpt : Option Nat) (target : Nat) (m : M) : Res :=
  step fuel (.innerThenFwdI dOpt target) m

/-- The zero-argument flattening forward (line 172). -/
def innerThenFwdV (fuel : Nat) (dOpt : Option Nat) (target : Nat) (m : M) : Res :=
  step fuel (.innerThenFwdV dOpt target) m

/-- Source: `Promise<T>::catchError` (lines 314-320), generic in the pushed
callback shape. -/
def catchErrorPush (fuel : Nat) (dOpt : Option Nat) (cb : RCb) (m : M) : Res :=
  step fuel (.catchErrorPush dOpt cb) m

/-! ## Public operations -/

/-- Source: `Promise<int>::then(F&&, G&&)` (lines 138-242), the two-argument
overload with an actual rejection handler.  NOTE: unlike the other three
`then` overloads, this one performs no `if (!d)` check; on a record-less
promise the executor dereferences the null `currentState` pointer
(`currentState->state`, line 228), modeled by the `nullDeref` outcome.
Returns the result together with the produced promise's record id (the fresh
record is allocated by `Promise<U> next(executor)` before the executor runs).
The constructor's `try`/`catch` (lines 98-104) converts a fault escaping the
executor into a rejection of the fresh record; it does not mask the null
dereference, which is not an exception. -/
def thenWithHandlers (fuel : Nat) (dOpt : Option Nat) (tagF : Nat) (uf : UserF)
    (tagG : Nat) (ug : UserG) (m : M) : Res × Nat :=
  match fuel with
  | 0 => ((m, .outOfFuel), m.heap.length)
  | fuel + 1 =>
    let (m2, next) := m.alloc (Rec.fresh uf.retVoid)
    let res : Res :=
      match dOpt with
      | none => (m2, .nullDeref)
      | some src =>
        match m2.get? src with
        | none => (m2, .ok)
        | some r =>
          if r.state = .Fulfilled then
            invokeF fuel (.handle tagF uf next src) r.value m2
          else if r.state = .Rejected then
            invokeR fuel (.handleR tagG ug uf.retVoid next src) r.error m2
          else
            (pushCbs m2 src (.handle tagF uf next src)
              (.handleR tagG ug uf.retVoid next src), .ok)
    ((match res with
      | (m3, .fault ex) => rejectFn fuel next (PromiseError.ofFault ex) m3
      | other => other), next)

/-- Source: `Promise<int>::then(F&&)` and `Promise<int>::then(F&&, std::nullptr_t)`
(lines 245-312): no rejection handler, so the rejection side is the forwarding
lambda `[reject](const PromiseError& e) { reject(e); }` (line 301).  This
overload does check `if (!d)` (lines 264-268) and then returns a fresh promise
immediately rejected with the no-state error. -/
def thenNoHandler (fuel : Nat) (dOpt : Option Nat) (tagF : Nat) (uf : UserF)
    (m : M) : Res × Nat :=
  match fuel with
  | 0 => ((m, .outOfFuel), m.heap.length)
  | fuel + 1 =>
    match dOpt with
    | none =>
      let (m2, next) := m.alloc (Rec.fresh uf.retVoid)
      (rejectFn fuel next noStateError m2, next)
    | some src =>
      let (m2, next) := m.alloc (Rec.fresh uf.retVoid)
      let res : Res :=
        match m2.get? src with
        | none => (m2, .ok)
        | some r =>
          if r.state = .Fulfilled then
            invokeF fuel (.handle tagF uf next src) r.value m2
          else if r.state = .Rejected then
            invokeR fuel (.forward next) r.error m2
          else
            (pushCbs m2 src (.handle tagF uf next src) (.forward next), .ok)
      ((match res with
        | (m3, .fault ex) => rejectFn fuel next (PromiseError.ofFault ex) m3
        | other => other), next)

/-- Source: `Promise<void>::then(F&&, G&&)` (lines 430-541).  This overload
does check `if (!d)` (lines 441-446). -/
def thenVoidWithHandlers (fuel : Nat) (dOpt : Option Nat) (tagF : Nat) (uf : UserFV)
    (tagG : Nat) (ug : UserG) (m : M) : Res × Nat :=
  match fuel with
  | 0 => ((m, .outOfFuel), m.heap.length)
  | fuel + 1 =>
    match dOpt with
    | none =>
      let (m2, next) := m.alloc (Rec.fresh uf.retVoid)
      (rejectFn fuel next noStateError m2, next)
    | some src =>
      let (m2, next) := m.alloc (Rec.fresh uf.retVoid)
      let res : Res :=
        match m2.get? src with
        | none => (m2, .ok)
        | some r =>
          if r.state = .Fulfilled then
            invokeF fuel (.handleV tagF uf next src) r.value m2
          else if r.state = .Rejected then
            invokeR fuel (.handleR tagG ug uf.retVoid next src) r.error m2
          else
            (pushCbs m2 src (.handleV tagF uf next src)
              (.handleR tagG ug uf.retVoid next src), .ok)
      ((match res with
        | (m3, .fault ex) => rejectFn fuel next (PromiseError.ofFault ex) m3
        | other => other), next)

/-- Source: `Promise<void>::then(F&&)` / `then(F&&, std::nullptr_t)`
(lines 543-609), with the `if (!d)` check at lines 561-565. -/
def thenVoidNoHandler (fuel : Nat) (dOpt : Option Nat) (tagF : Nat) (uf : UserFV)
    (m : M) : Res × Nat :=
  match fuel with
  | 0 => ((m, .outOfFuel), m.heap.length)
  | fuel + 1 =>
    match dOpt with
    | none =>
      let (m2, next) := m.alloc (Rec.fresh uf.retVoid)
      (rejectFn fuel next noStateError m2, next)
    | some src =>
      let (m2, next) := m.alloc (Rec.fresh uf.retVoid)
      let res : Res :=
        match m2.get? src with
        | none => (m2, .ok)
        | some r =>
          if r.state = .Fulfilled then
            invokeF fuel (.handleV tagF uf next src) r.value m2
          else if r.state = .Rejected then
            invokeR fuel (.forward next) r.error m2
          else
            (pushCbs m2 src (.handleV tagF uf next src) (.forward next), .ok)
      ((match res with
        | (m3, .fault ex) => rejectFn fuel next (PromiseError.ofFault ex) m3
        | other => other), next)

/-- Source: `Promise<T>::catchError(OnRejected)` (lines 314-320): append the
user handler — unwrapped — to the rejection queue and immediately attempt a
drain.  `tag` marks the handler's invocation in the trace. -/
def catchErrorOp (fuel : Nat) (dOpt : Option Nat) (tag : Nat)
    (g : PromiseError → Except CppFault Unit) (m : M) : Res :=
  catchErrorPush fuel dOpt (.raw tag g) m

/-- One step of a defunctionalized executor body: call the `resolve`
capability, call the `reject` capability, or raise a native fault
(a `std::exception` with the given message, or a non-standard one). -/
inductive ExecStep where
  | callResolve (v : Int)
  | callReject (e : PromiseError)
  | throwStd (msg : String)
  | throwUnknown

/-- Run an executor body: the steps in order; a raised fault aborts the rest
and propagates out of the body. -/
def runExecutor (fuel : Nat) (i : Nat) (steps : List ExecStep) (m : M) : Res :=
  match fuel, steps with
  | 0, _ => (m, .outOfFuel)
  | _ + 1, [] => (m, .ok)
  | fuel + 1, s :: rest =>
    match s with
    | .callResolve v =>
      match resolveFn fuel i v m with
      | (m2, .ok) => runExecutor fuel i rest m2
      | other => other
    | .callReject e =>
      match rejectFn fuel i e m with
      | (m2, .ok) => runExecutor fuel i rest m2
      | other => other
    | .throwStd msg => (m, .fault (.std msg))
    | .throwUnknown => (m, .fault .unknown)

/-- Source: `Promise<int>::Promise(Executor)` (lines 59-105): allocate a fresh
record, run the executor synchronously with the two capabilities bound to it,
and convert a fault escaping the executor body into an implicit reject with
`fromException`/`unknownException` (lines 98-104).  Returns the new record id. -/
def construct (fuel : Nat) (steps : List ExecStep) (m : M) : Res × Nat :=
  match fuel with
  | 0 => ((m, .outOfFuel), m.heap.length)
  | fuel + 1 =>
    let (m2, i) := m.alloc (Rec.fresh false)
    ((match runExecutor fuel i steps m2 with
      | (m3, .fault (.std msg)) => rejectFn fuel i (PromiseError.fromException msg) m3
      | (m3, .fault .unknown) => rejectFn fuel i PromiseError.unknownException m3
      | other => other), i)

/-- Source: `Promise<T>::resolve(T)` (lines 107-111): `if (m_resolveFn)
m_resolveFn(value);`.  A promise handle carries `some i` when it was built by
the executor constructor (which sets both `d` and the capability members) and
`none` when default-constructed, in which case the call is a no-op. -/
def resolveMember (fuel : Nat) (dOpt : Option Nat) (v : Int) (m : M) : Res :=
  match dOpt with
  | none => (m, .ok)
  | some i => resolveFn fuel i v m

/-- Source: `Promise<T>::reject(const PromiseError&)` (lines 113-117). -/
def rejectMember (fuel : Nat) (dOpt : Option Nat) (e : PromiseError) (m : M) : Res :=
  match dOpt with
  | none => (m, .ok)
  | some i => rejectFn fuel i e m

/-- Source: `Promise<T>::state()` (line 323): `d ? d->state : PromiseState::Pending`. -/
def stateMember (m : M) (dOpt : Option Nat) : PromiseState :=
  match dOpt with
  | none => .Pending
  | some i =>
    match m.get? i with
    | none => .Pending
    | some r => r.state

/-- The state stored in record `i` of machine `m` (`Pending` for an absent id). -/
def recStateOf (m : M) (i : Nat) : PromiseState :=
  match m.get? i with
  | none => .Pending
  | some r => r.state

/-- The value stored in record `i` of machine `m` (`0` for an absent id). -/
def recValueOf (m : M) (i : Nat) : Int :=
  match m.get? i with
  | none => 0
  | some r => r.value

/-- The error stored in record `i` of machine `m`. -/
def recErrorOf (m : M) (i : Nat) : PromiseError :=
  match m.get? i with
  | none => ⟨"", 0⟩
  | some r => r.error

/-- The fulfillment queue of record `i` of machine `m`. -/
def recThenCbsOf (m : M) (i : Nat) : List FCb :=
  match m.get? i with
  | none => []
  | some r => r.thenCallbacks

/-- The rejection queue of record `i` of machine `m`. -/
def recCatchCbsOf (m : M) (i : Nat) : List RCb :=
  match m.get? i with
  | none => []
  | some r => r.catchCallbacks

/-! ## Scenario machines

The scenario theorems below run concrete promise programs.  To keep each
proof step a single operation applied to an explicit machine, the
intermediate machines are spelled out as definitions; the theorems contain,
as conjuncts, the equations showing that the public operations produce
exactly these machines, so nothing is assumed about them. -/

/-- A freshly constructed value-bearing record (what `Promise<int> p(executor)`
allocates before the executor settles anything). -/
def pendingRec : Rec := Rec.fresh false

/-- The machine after `Promise<int> p([](auto, auto) {});`: one pending record. -/
def onePending : M := ⟨[pendingRec], []⟩

/-- The machine after a promise constructed with `reject(e)` in its executor:
one record rejected with `e`, queues drained and cleared. -/
def oneRejected (e : PromiseError) : M := ⟨[⟨.Rejected, 0, e, [], [], false⟩], []⟩

/-- The machine after a promise constructed with `resolve(w)` in its executor. -/
def oneFulfilled (w : Int) : M := ⟨[⟨.Fulfilled, w, ⟨"", 0⟩, [], [], false⟩], []⟩

/-! ## Theorems -/

/-- `Promise<U>` is never the same type as its own value type (used to settle
the ill-formed nested-resolve branch). -/
theorem promise_ne_self (U : CType) : CType.promise U ≠ U := by
  intro h
  have h2 := congrArg sizeOf h
  simp only [CType.promise.sizeOf_spec] at h2
  omega

/-- Claim C3: once a record has left `Pending`, every further call to the
`resolve` / `reject` capabilities bound to it — including re-entrant calls made
from a continuation during a drain, since the machine `m` is arbitrary — is a
complete no-op: the machine (status, stored value, stored error, queues,
trace) is returned unchanged, so the status never returns to `Pending` and the
terminal kind never changes.  This is the `Pending`-only guard at the top of
`m_resolveFn` / `m_rejectFn` (lines 64, 93, 395, 400); the guard is checked
before anything else, and the state is written before the drain starts, so a
re-entrant settlement attempt from inside the drain sees a settled record. -/
theorem settled_record_settlement_frozen (fuel i : Nat) (v : Int) (e : PromiseError)
    (m : M) (h : recStateOf m i ≠ .Pending) :
    resolveFn (fuel + 1) i v m = (m, .ok) ∧
    rejectFn (fuel + 1) i e m = (m, .ok) ∧
    resolveFnV (fuel + 1) i m = (m, .ok) := by
  unfold recStateOf at h
  cases hm : m.get? i with
  | none => rw [hm] at h; exact absurd rfl h
  | some r =>
    rw [hm] at h
    refine ⟨?_, ?_, ?_⟩ <;> simp [resolveFn, rejectFn, resolveFnV, step, hm, h]

/-- Witness for `settled_record_settlement_frozen` at a concrete settled record. -/
theorem settled_record_settlement_frozen_witness :
    recStateOf (oneFulfilled 5) 0 ≠ .Pending ∧
    (resolveFn 1 0 7 (oneFulfilled 5) = (oneFulfilled 5, .ok) ∧
     rejectFn 1 0 ⟨"late", 2⟩ (oneFulfilled 5) = (oneFulfilled 5, .ok) ∧
     resolveFnV 1 0 (oneFulfilled 5) = (oneFulfilled 5, .ok)) :=
  ⟨by decide, settled_record_settlement_frozen 0 0 7 ⟨"late", 2⟩ (oneFulfilled 5) (by decide)⟩

/-- Claim C7 counterexample: the executor
`[](auto resolve, auto reject) { resolve(5); throw std::runtime_error("boom"); }`
raises a native fault, yet the resulting promise is Fulfilled with `5`, not
Rejected: the implicit reject issued by the constructor's catch clause hits the
`Pending`-only guard and is a no-op.  This refutes the claim that every
executor body raising a native fault produces a rejected promise. -/
theorem executor_fault_after_settle_keeps_fulfillment :
    recStateOf ((construct 30 [.callResolve 5, .throwStd "boom"] M.empty).1.1) 0
      = .Fulfilled ∧
    recStateOf ((construct 30 [.callResolve 5, .throwStd "boom"] M.empty).1.1) 0
      ≠ .Rejected ∧
    recValueOf ((construct 30 [.callResolve 5, .throwStd "boom"] M.empty).1.1) 0 = 5 ∧
    (construct 30 [.callResolve 5, .throwStd "boom"] M.empty).1.2 = .ok :=
  ⟨rfl, by decide, rfl, rfl⟩

/-- Claim C7 (amended): a native fault raised by an executor body is captured by
the constructor's `try`/`catch` (lines 98-104) and never escapes the
constructor; it is converted into an implicit reject carrying code `-1` and the
fault's message (`"Unknown exception"` for a non-standard fault), so the
promise is Rejected with that error whenever the executor had not already
settled it; if the executor settled the promise first, the earlier settlement
is kept. -/
theorem executor_fault_capture (msg : String) (v : Int) :
    (recStateOf ((construct 30 [.throwStd msg] M.empty).1.1) 0 = .Rejected ∧
     recErrorOf ((construct 30 [.throwStd msg] M.empty).1.1) 0 = ⟨msg, -1⟩ ∧
     (construct 30 [.throwStd msg] M.empty).1.2 = .ok) ∧
    (recStateOf ((construct 30 [.throwUnknown] M.empty).1.1) 0 = .Rejected ∧
     recErrorOf ((construct 30 [.throwUnknown] M.empty).1.1) 0 = ⟨"Unknown exception", -1⟩ ∧
     (construct 30 [.throwUnknown] M.empty).1.2 = .ok) ∧
    (recStateOf ((construct 30 [.callResolve v, .throwStd msg] M.empty).1.1) 0 = .Fulfilled ∧
     recValueOf ((construct 30 [.callResolve v, .throwStd msg] M.empty).1.1) 0 = v ∧
     (construct 30 [.callResolve v, .throwStd msg] M.empty).1.2 = .ok) :=
  ⟨⟨rfl, rfl, rfl⟩, ⟨rfl, rfl, rfl⟩, ⟨rfl, rfl, rfl⟩⟩

/-- Claim C8: for an already-rejected promise with stored error `e` (built here
by an executor calling `reject(e)`), `then` with no rejection handler produces
a new promise rejected with the identical error — same message and same code,
since `PromiseError` equality is componentwise — and the fulfillment callback
is never invoked (the trace stays empty), for every fulfillment callback `uf`
of any return shape.  This is the forwarding `handleRejected` of
`then(F, nullptr)` (line 301) run on the `Rejected` dispatch branch (line 305). -/
theorem rejected_then_forwards_identical_error (e : PromiseError) (uf : UserF) (t : Nat) :
    (construct 30 [.callReject e] M.empty = ((oneRejected e, .ok), 0)) ∧
    recStateOf ((thenNoHandler 30 (some 0) t uf (oneRejected e)).1.1) 1 = .Rejected ∧
    recErrorOf ((thenNoHandler 30 (some 0) t uf (oneRejected e)).1.1) 1 = e ∧
    ((thenNoHandler 30 (some 0) t uf (oneRejected e)).1.1).trace = [] ∧
    (thenNoHandler 30 (some 0) t uf (oneRejected e)).1.2 = .ok ∧
    (thenNoHandler 30 (some 0) t uf (oneRejected e)).2 = 1 :=
  ⟨rfl, rfl, rfl, rfl, rfl, rfl⟩

/-- Claim C2: behavior of a default-constructed (record-less) promise.  What
holds: it reports `Pending`, its `resolve`/`reject` members are no-ops (the
`if (m_resolveFn)` / `if (m_rejectFn)` guards, lines 108/114), and three of the
four `then` overloads — `Promise<int>::then(F)` / `then(F, nullptr)` (check at
lines 264-268), `Promise<void>::then(F, G)` (lines 441-446) and
`Promise<void>::then(F)` / `then(F, nullptr)` (lines 561-565) — return a fresh
promise immediately rejected with the "Promise has no state" error.  What fails
(the code bug): `Promise<int>::then(F, G)` with an actual rejection handler
(lines 138-242) has no such check, so its executor dereferences the null
`currentState` pointer (line 228) — modeled by the `nullDeref` outcome — instead
of returning the rejected promise the claim describes. -/
theorem stateless_then_overloads (fuel t1 t2 : Nat) (uf : UserF) (ufv : UserFV)
    (ug : UserG) (v : Int) (e : PromiseError) (m : M) :
    ((thenWithHandlers 30 none t1 uf t2 ug M.empty).1.2 = .nullDeref) ∧
    (recStateOf ((thenNoHandler 30 none t1 uf M.empty).1.1) 0 = .Rejected ∧
     recErrorOf ((thenNoHandler 30 none t1 uf M.empty).1.1) 0 = noStateError ∧
     (thenNoHandler 30 none t1 uf M.empty).1.2 = .ok) ∧
    (recStateOf ((thenVoidWithHandlers 30 none t1 ufv t2 ug M.empty).1.1) 0 = .Rejected ∧
     recErrorOf ((thenVoidWithHandlers 30 none t1 ufv t2 ug M.empty).1.1) 0 = noStateError ∧
     (thenVoidWithHandlers 30 none t1 ufv t2 ug M.empty).1.2 = .ok) ∧
    (recStateOf ((thenVoidNoHandler 30 none t1 ufv M.empty).1.1) 0 = .Rejected ∧
     recErrorOf ((thenVoidNoHandler 30 none t1 ufv M.empty).1.1) 0 = noStateError ∧
     (thenVoidNoHandler 30 none t1 ufv M.empty).1.2 = .ok) ∧
    (resolveMember fuel none v m = (m, .ok) ∧
     rejectMember fuel none e m = (m, .ok) ∧
     stateMember m none = .Pending) :=
  ⟨rfl, ⟨rfl, rfl, rfl⟩, ⟨rfl, rfl, rfl⟩, ⟨rfl, rfl, rfl⟩, ⟨rfl, rfl, rfl⟩⟩

/-- The machine after registering one pure `int`-returning continuation (tag
`t1`, function `g1`) on the pending record `0`: the source record holds the
wrapped `handleFulfilled` and the forwarding `handleRejected`, and record `1`
is the fresh produced promise. -/
def regOne (g1 : Int → Int) (t1 : Nat) : M :=
  ⟨[⟨.Pending, 0, ⟨"", 0⟩,
      [.handle t1 (.toInt (fun x => .ok (g1 x))) 1 0],
      [.forward 1], false⟩,
    pendingRec], []⟩

/-- As `regOne`, after registering a second continuation (producing record `2`). -/
def regTwo (g1 g2 : Int → Int) (t1 t2 : Nat) : M :=
  ⟨[⟨.Pending, 0, ⟨"", 0⟩,
      [.handle t1 (.toInt (fun x => .ok (g1 x))) 1 0,
       .handle t2 (.toInt (fun x => .ok (g2 x))) 2 0],
      [.forward 1, .forward 2], false⟩,
    pendingRec, pendingRec], []⟩

/-- As `regTwo`, after registering a third continuation (producing record `3`). -/
def regThree (g1 g2 g3 : Int → Int) (t1 t2 t3 : Nat) : M :=
  ⟨[⟨.Pending, 0, ⟨"", 0⟩,
      [.handle t1 (.toInt (fun x => .ok (g1 x))) 1 0,
       .handle t2 (.toInt (fun x => .ok (g2 x))) 2 0,
       .handle t3 (.toInt (fun x => .ok (g3 x))) 3 0],
      [.forward 1, .forward 2, .forward 3], false⟩,
    pendingRec, pendingRec, pendingRec], []⟩

/-- Claim C6: on a pending promise, three continuations registered via `then`
(tags `t1`, `t2`, `t3`, arbitrary pure functions `g1`, `g2`, `g3`) are not
invoked at registration (the trace is still empty), and fulfilling the promise
invokes them in registration order, each exactly once: the trace is exactly
`[t1, t2, t3]`, each produced promise is fulfilled with its continuation's
result, and the drain returns normally.  The conjuncts walk the construction:
`Promise<int> p(executor)` (no settlement), three `then` calls appending to the
queues (lines 236-237), then `resolve(v)` draining `thenCallbacks` in order
(line 361). -/
theorem then_continuations_fire_in_registration_order
    (g1 g2 g3 : Int → Int) (t1 t2 t3 : Nat) (v : Int) :
    (construct 30 [] M.empty = ((onePending, .ok), 0)) ∧
    (thenNoHandler 30 (some 0) t1 (.toInt (fun x => .ok (g1 x))) onePending
      = ((regOne g1 t1, .ok), 1)) ∧
    (thenNoHandler 30 (some 0) t2 (.toInt (fun x => .ok (g2 x))) (regOne g1 t1)
      = ((regTwo g1 g2 t1 t2, .ok), 2)) ∧
    (thenNoHandler 30 (some 0) t3 (.toInt (fun x => .ok (g3 x))) (regTwo g1 g2 t1 t2)
      = ((regThree g1 g2 g3 t1 t2 t3, .ok), 3)) ∧
    ((regThree g1 g2 g3 t1 t2 t3).trace = []) ∧
    ((resolveFn 30 0 v (regThree g1 g2 g3 t1 t2 t3)).1.trace = [t1, t2, t3] ∧
     (resolveFn 30 0 v (regThree g1 g2 g3 t1 t2 t3)).2 = .ok ∧
     recStateOf (resolveFn 30 0 v (regThree g1 g2 g3 t1 t2 t3)).1 1 = .Fulfilled ∧
     recValueOf (resolveFn 30 0 v (regThree g1 g2 g3 t1 t2 t3)).1 1 = g1 v ∧
     recStateOf (resolveFn 30 0 v (regThree g1 g2 g3 t1 t2 t3)).1 2 = .Fulfilled ∧
     recValueOf (resolveFn 30 0 v (regThree g1 g2 g3 t1 t2 t3)).1 2 = g2 v ∧
     recStateOf (resolveFn 30 0 v (regThree g1 g2 g3 t1 t2 t3)).1 3 = .Fulfilled ∧
     recValueOf (resolveFn 30 0 v (regThree g1 g2 g3 t1 t2 t3)).1 3 = g3 v) :=
  ⟨rfl, rfl, rfl, rfl, rfl, rfl, rfl, rfl, rfl, rfl, rfl, rfl, rfl⟩

/-- A single rejected record with trace `ts` (the shape left by draining a
rejected record's handlers whose tags are `ts`). -/
def oneRejectedT (e : PromiseError) (ts : List Nat) : M :=
  ⟨[⟨.Rejected, 0, e, [], [], false⟩], ts⟩

/-- Claim C9: both queues are cleared immediately after a drain, and a
rejection handler registered via `catchError` on an already-settled,
already-drained record is invoked by the immediate second drain pass at
registration time rather than silently dropped.  The conjuncts show: a
promise whose executor called `reject(e)` ends with both queues empty; a first
`catchError` (tag `t1`, arbitrary handler body `u1`) is invoked immediately
(trace `[t1]`) and leaves the queues empty again; a second, late `catchError`
on the same drained record (tag `t2`) is again invoked immediately (trace
`[t1, t2]`) with the queues cleared; and the fulfillment side clears both
queues as well (the `regOne` machine after `resolve(v)`).  Source:
`catchError` appends and immediately calls `maybeInvoke` (lines 314-320),
which drains and clears both vectors (lines 359-369). -/
theorem late_catchError_second_drain (e : PromiseError)
    (u1 u2 : PromiseError → Unit) (t1 t2 : Nat) (g1 : Int → Int) (t : Nat) (v : Int) :
    (construct 30 [.callReject e] M.empty = ((oneRejected e, .ok), 0)) ∧
    (recThenCbsOf (oneRejected e) 0 = [] ∧ recCatchCbsOf (oneRejected e) 0 = []) ∧
    (catchErrorOp 30 (some 0) t1 (fun x => .ok (u1 x)) (oneRejected e)
      = (oneRejectedT e [t1], .ok)) ∧
    (catchErrorOp 30 (some 0) t2 (fun x => .ok (u2 x)) (oneRejectedT e [t1])
      = (oneRejectedT e [t1, t2], .ok)) ∧
    (recThenCbsOf ((resolveFn 30 0 v (regOne g1 t)).1) 0 = [] ∧
     recCatchCbsOf ((resolveFn 30 0 v (regOne g1 t)).1) 0 = []) :=
  ⟨rfl, ⟨rfl, rfl⟩, rfl, rfl, ⟨rfl, rfl⟩⟩

/-- The machine after `p.then(onFulfilled, onRejected)` on the pending record
`0`, with an `int`-returning `onFulfilled` (so the chain's `U` is `int`) and a
`void`-returning `onRejected`. -/
def regVoidHandler (g : Int → Int) (u : PromiseError → Unit) (t1 t2 : Nat) : M :=
  ⟨[⟨.Pending, 0, ⟨"", 0⟩,
      [.handle t1 (.toInt (fun x => .ok (g x))) 1 0],
      [.handleR t2 (.toVoid (fun x => .ok (u x))) false 1 0], false⟩,
    pendingRec], []⟩

/-- Claim C10: when the chain's inferred result type `U` is not `void`, a
rejection handler that returns no value causes the produced promise to be
rejected with the "Invalid return type" error, code `-1` (lines 194-199), not
fulfilled or left pending; and the fulfillment direction of the claim is
vacuous at the type level, since `U` is inferred from the fulfillment
callback's own return type (lines 144-147), so a void-returning fulfillment
callback forces `U = void` (`inferU` conjunct).  The scenario registers
`then(g : int(int), u : void(err))` on a pending promise and rejects it; the
handler is invoked (trace `[t2]`) and the produced promise ends rejected with
the invalid-return error. -/
theorem void_returning_rejection_handler_invalid_return
    (e : PromiseError) (g : Int → Int) (u : PromiseError → Unit) (t1 t2 : Nat) :
    (inferU .void = .void) ∧
    (construct 30 [] M.empty = ((onePending, .ok), 0)) ∧
    (thenWithHandlers 30 (some 0) t1 (.toInt (fun x => .ok (g x))) t2
        (.toVoid (fun x => .ok (u x))) onePending
      = ((regVoidHandler g u t1 t2, .ok), 1)) ∧
    (recStateOf ((rejectFn 30 0 e (regVoidHandler g u t1 t2)).1) 1 = .Rejected ∧
     recErrorOf ((rejectFn 30 0 e (regVoidHandler g u t1 t2)).1) 1 = invalidReturnError ∧
     ((rejectFn 30 0 e (regVoidHandler g u t1 t2)).1).trace = [t2] ∧
     (rejectFn 30 0 e (regVoidHandler g u t1 t2)).2 = .ok) :=
  ⟨rfl, rfl, rfl, rfl, rfl, rfl, rfl⟩

/-- A pending record whose rejection queue holds one raw `catchError` handler
(tag `t`) that raises the fault `ex` when invoked. -/
def rawThrowPending (ex : CppFault) (t : Nat) : M :=
  ⟨[⟨.Pending, 0, ⟨"", 0⟩, [], [.raw t (fun _ => .error ex)], false⟩], []⟩

/-- Claim C1 counterexample: a rejection handler registered via `catchError` on
a pending promise raises a native fault when the later `reject` call drains it,
and that fault propagates out of the `reject` call — the handler was invoked
(trace `[7]`) and the drain's outcome is the escaped fault, not a normal
return.  `catchError` pushes the user handler unwrapped (line 316) and
`maybeInvoke` calls it with no `try`/`catch` (line 365), so nothing converts
the fault into a rejection; this refutes the claim that a fault inside a
`catchError`-registered handler never propagates out of the reject/drain call
that triggered it. -/
theorem catchError_fault_escapes_drain :
    (construct 30 [] M.empty = ((onePending, .ok), 0)) ∧
    (catchErrorOp 30 (some 0) 7 (fun _ => .error (.std "boom")) onePending
      = (rawThrowPending (.std "boom") 7, .ok)) ∧
    (rejectFn 30 0 ⟨"err", 0⟩ (rawThrowPending (.std "boom") 7)).2
      = .fault (.std "boom") ∧
    ((rejectFn 30 0 ⟨"err", 0⟩ (rawThrowPending (.std "boom") 7)).1).trace = [7] :=
  ⟨rfl, rfl, rfl, rfl⟩

/-- As `regOne`, but the registered continuation raises the fault `ex`. -/
def regOneThrow (ex : CppFault) (t : Nat) : M :=
  ⟨[⟨.Pending, 0, ⟨"", 0⟩,
      [.handle t (.toInt (fun _ => .error ex)) 1 0],
      [.forward 1], false⟩,
    pendingRec], []⟩

/-- As `regVoidHandler`, but with an `int`-returning rejection handler that
raises the fault `ex`. -/
def regRejThrow (ex : CppFault) (g : Int → Int) (t1 t2 : Nat) : M :=
  ⟨[⟨.Pending, 0, ⟨"", 0⟩,
      [.handle t1 (.toInt (fun x => .ok (g x))) 1 0],
      [.handleR t2 (.toInt (fun _ => .error ex)) false 1 0], false⟩,
    pendingRec], []⟩

/-- Claim C1 (amended): a native fault raised inside an executor body or inside
a continuation registered via `then` — fulfillment or rejection handler — is
caught at the point of invocation by the wrapping `try`/`catch` (lines 154,
181-185, 192, 219-223, 98-104) and converted into a rejection of the newly
produced promise carrying `fromException`'s error; it never propagates out of
the `resolve`/`reject`/drain call.  A handler registered via `catchError`,
however, is stored unwrapped (line 316), so a fault it raises propagates out
of the `reject` call that drains it.  Conjunct groups: (pure continuation
settles normally); (faulting `then` fulfillment continuation: drain returns
normally, produced promise rejected with the converted fault); (faulting
`then` rejection handler: same); (faulting executor: constructor returns
normally, promise rejected); (faulting `catchError` handler: the fault
escapes the `reject` call). -/
theorem then_continuations_capture_faults (ex : CppFault) (g : Int → Int)
    (v : Int) (e : PromiseError) (msg : String) (t t1 t2 : Nat) :
    ((resolveFn 30 0 v (regOne g t)).2 = .ok ∧
     recStateOf (resolveFn 30 0 v (regOne g t)).1 1 = .Fulfilled ∧
     recValueOf (resolveFn 30 0 v (regOne g t)).1 1 = g v) ∧
    ((thenNoHandler 30 (some 0) t (.toInt (fun _ => .error ex)) onePending
       = ((regOneThrow ex t, .ok), 1)) ∧
     (resolveFn 30 0 v (regOneThrow ex t)).2 = .ok ∧
     recStateOf (resolveFn 30 0 v (regOneThrow ex t)).1 1 = .Rejected ∧
     recErrorOf (resolveFn 30 0 v (regOneThrow ex t)).1 1 = PromiseError.ofFault ex) ∧
    ((thenWithHandlers 30 (some 0) t1 (.toInt (fun x => .ok (g x))) t2
        (.toInt (fun _ => .error ex)) onePending
       = ((regRejThrow ex g t1 t2, .ok), 1)) ∧
     (rejectFn 30 0 e (regRejThrow ex g t1 t2)).2 = .ok ∧
     recStateOf (rejectFn 30 0 e (regRejThrow ex g t1 t2)).1 1 = .Rejected ∧
     recErrorOf (rejectFn 30 0 e (regRejThrow ex g t1 t2)).1 1 = PromiseError.ofFault ex) ∧
    ((construct 30 [.throwStd msg] M.empty).1.2 = .ok ∧
     recStateOf ((construct 30 [.throwStd msg] M.empty).1.1) 0 = .Rejected) ∧
    ((catchErrorOp 30 (some 0) t (fun _ => .error ex) onePending
       = (rawThrowPending ex t, .ok)) ∧
     (rejectFn 30 0 e (rawThrowPending ex t)).2 = .fault ex) :=
  ⟨⟨rfl, rfl, rfl⟩, ⟨rfl, rfl, rfl, rfl⟩, ⟨rfl, rfl, rfl, rfl⟩, ⟨rfl, rfl⟩, ⟨rfl, rfl⟩⟩

/-- A record fulfilled with `w`, queues drained and cleared. -/
def fulfilledRec (w : Int) : Rec := ⟨.Fulfilled, w, ⟨"", 0⟩, [], [], false⟩

/-- A record rejected with `e`, queues drained and cleared. -/
def rejectedRec (e : PromiseError) : Rec := ⟨.Rejected, 0, e, [], [], false⟩

/-- Machine: record `0` pending, record `1` fulfilled with `w`. -/
def pendingAndFulfilled (w : Int) : M := ⟨[pendingRec, fulfilledRec w], []⟩

/-- Machine: record `0` pending, record `1` rejected with `e`. -/
def pendingAndRejected (e : PromiseError) : M := ⟨[pendingRec, rejectedRec e], []⟩

/-- Machine: records `0` and `1` both pending. -/
def twoPending : M := ⟨[pendingRec, pendingRec], []⟩

/-- The promise-returning continuation `[](const int&) { return inner; }` where
`inner` is the promise backed by record `1`. -/
def returnInner : UserF := .toProm (fun _ => .ok (some 1))

/-- Machine after registering `returnInner` (tag `t`) on pending record `0`,
with record `1` the inner promise in state `r1` and record `2` the produced
promise. -/
def flattenReady (r1 : Rec) (t : Nat) : M :=
  ⟨[⟨.Pending, 0, ⟨"", 0⟩, [.handle t returnInner 2 0], [.forward 2], false⟩,
    r1, pendingRec], []⟩

/-- Machine after fulfilling record `0` of `flattenReady pendingRec t` with `v`:
the continuation ran (trace `[t]`), the outer produced promise (record `2`) is
still pending, and the inner record `1` now carries the forwarding callbacks —
`fwdResolve 2 3` in its fulfillment queue and `forward 3`, `forward 2` in its
rejection queue, record `3` being the `Promise<void>` produced by the inner
`result.then(...)` call of the flattening path. -/
def flattenWaiting (v : Int) (t : Nat) : M :=
  ⟨[fulfilledRec v,
    ⟨.Pending, 0, ⟨"", 0⟩, [.fwdResolve 2 3], [.forward 3, .forward 2], false⟩,
    pendingRec, Rec.fresh true], [t]⟩

set_option maxHeartbeats 2000000 in
/-- Claim C4: status of the flattening rule.  The `then`-continuation half
holds: when a continuation returns a promise of the same value type, the
produced promise's final settlement equals the inner promise's outcome —
shown for an inner promise already fulfilled with `w`, already rejected with
`e`, and still pending and settled later either way (lines 163-179).  The
direct-resolve half is a code bug: the nested-promise branch of `m_resolveFn`
(lines 66-90) is ill-formed C++ when instantiated — for `T = Promise<U>` the
forwarding assignment `statePtr->value = v;` (line 78) assigns a value of type
`U` to a field of type `Promise<U>`, which has no such assignment and no
converting constructor (first conjunct: not assignable for any `U`) — so
`Promise<Promise<U>>` can never be constructed with an executor and no
flattening-by-resolve behavior exists. -/
theorem nested_resolve_ill_formed_and_then_flattening
    (U : CType) (w v : Int) (e : PromiseError) (t : Nat) :
    (cppAssignable (nestedResolveAssignTypes (.promise U)).1
        (nestedResolveAssignTypes (.promise U)).2 = false) ∧
    ((construct 30 [.callResolve w] onePending = ((pendingAndFulfilled w, .ok), 1)) ∧
     (thenNoHandler 30 (some 0) t returnInner (pendingAndFulfilled w)
       = ((flattenReady (fulfilledRec w) t, .ok), 2)) ∧
     recStateOf (resolveFn 30 0 v (flattenReady (fulfilledRec w) t)).1 2 = .Fulfilled ∧
     recValueOf (resolveFn 30 0 v (flattenReady (fulfilledRec w) t)).1 2 = w ∧
     (resolveFn 30 0 v (flattenReady (fulfilledRec w) t)).2 = .ok) ∧
    ((construct 30 [.callReject e] onePending = ((pendingAndRejected e, .ok), 1)) ∧
     (thenNoHandler 30 (some 0) t returnInner (pendingAndRejected e)
       = ((flattenReady (rejectedRec e) t, .ok), 2)) ∧
     recStateOf (resolveFn 30 0 v (flattenReady (rejectedRec e) t)).1 2 = .Rejected ∧
     recErrorOf (resolveFn 30 0 v (flattenReady (rejectedRec e) t)).1 2 = e ∧
     (resolveFn 30 0 v (flattenReady (rejectedRec e) t)).2 = .ok) ∧
    ((construct 30 [] onePending = ((twoPending, .ok), 1)) ∧
     (thenNoHandler 30 (some 0) t returnInner twoPending
       = ((flattenReady pendingRec t, .ok), 2)) ∧
     (resolveFn 30 0 v (flattenReady pendingRec t) = (flattenWaiting v t, .ok)) ∧
     recStateOf (flattenWaiting v t) 2 = .Pending ∧
     (recStateOf (resolveFn 30 1 w (flattenWaiting v t)).1 2 = .Fulfilled ∧
      recValueOf (resolveFn 30 1 w (flattenWaiting v t)).1 2 = w ∧
      (resolveFn 30 1 w (flattenWaiting v t)).2 = .ok) ∧
     (recStateOf (rejectFn 30 1 e (flattenWaiting v t)).1 2 = .Rejected ∧
      recErrorOf (rejectFn 30 1 e (flattenWaiting v t)).1 2 = e ∧
      (rejectFn 30 1 e (flattenWaiting v t)).2 = .ok)) := by
  refine ⟨?_, ⟨rfl, rfl, rfl, rfl, rfl⟩, ⟨rfl, rfl, rfl, rfl, rfl⟩,
    ⟨rfl, rfl, rfl, rfl, ⟨rfl, rfl, rfl⟩, ⟨rfl, rfl, rfl⟩⟩⟩
  simp only [cppAssignable, nestedResolveAssignTypes, valueTypeT]
  exact beq_eq_false_iff_ne.mpr (promise_ne_self U)

/-- The continuation `[&p](const int&) { return p; }` returning the source
promise itself (record `0`). -/
def returnSource : UserF := .toProm (fun _ => .ok (some 0))

/-- Machine after registering `returnSource` (tag `t`) on pending record `0`. -/
def regCycle (t : Nat) : M :=
  ⟨[⟨.Pending, 0, ⟨"", 0⟩, [.handle t returnSource 1 0], [.forward 1], false⟩,
    pendingRec], []⟩

/-- Claim C5: status of cycle detection.  The `then`-continuation half holds:
when the continuation run during the source's drain returns a promise whose
record is identical to the drained source record, the produced promise settles
Rejected with the "Chaining cycle detected for promise" error, code `-1`, and
the operation terminates normally (lines 164-169).  The direct-resolve half is
a code bug: the cycle check of `m_resolveFn`'s nested branch, `value.d ==
statePtr` (line 68), is ill-formed C++ when instantiated — for `T = Promise<U>`
it compares `shared_ptr`s of the unrelated pointee types `Promise<U>::State`
and `Promise<Promise<U>>::State` (first conjunct), and it names the private
member `d` of the distinct instantiation `Promise<U>` from inside
`Promise<Promise<U>>`, which declares no `friend` (second conjunct) — so the
direct-resolve cycle rejection can never execute. -/
theorem nested_cycle_check_ill_formed_and_then_cycle_detection
    (U : CType) (v : Int) (t : Nat) :
    (sharedPtrComparable (nestedResolveCmpTypes (.promise U)).1
        (nestedResolveCmpTypes (.promise U)).2 = false) ∧
    (privateDAccessible U (.promise U) = false) ∧
    ((thenNoHandler 30 (some 0) t returnSource onePending = ((regCycle t, .ok), 1)) ∧
     recStateOf (resolveFn 30 0 v (regCycle t)).1 1 = .Rejected ∧
     recErrorOf (resolveFn 30 0 v (regCycle t)).1 1 = chainingCycleError ∧
     chainingCycleError = ⟨"Chaining cycle detected for promise", -1⟩ ∧
     (resolveFn 30 0 v (regCycle t)).2 = .ok) := by
  refine ⟨?_, ?_, ⟨rfl, rfl, rfl, rfl, rfl⟩⟩
  · simp only [sharedPtrComparable, nestedResolveCmpTypes, valueTypeT]
    refine beq_eq_false_iff_ne.mpr (fun h => ?_)
    injection h with h2
    exact promise_ne_self U h2.symm
  · exact beq_eq_false_iff_ne.mpr (fun h => promise_ne_self U h.symm)

end CPromise
